import Mathlib

/-!
Verification of the PV-module simulation core (cell solver, LUT cache,
string and module composition) against its specification.

The numeric code is embedded shallowly: purely arithmetic computations are
translated to exact rationals; the transcendental single-diode / avalanche
branches are translated to real-valued functions using Real.exp; stateful
pieces (the on-disk LUT cache, the shared interpolator) are modelled by
explicit data passed to the functions that consult them.  Per-cell voltage
solvers that the string/module composers merely call are abstracted as
function parameters where only the composition logic is at issue.
-/

namespace PVModul

/-! ## Configuration constants (config.py) -/

/-- BYPASS_DIODE Vf = 0.4 V (config.py). -/
def bypass_Vf : ℚ := 2/5

/-- CELL_PARAMS Iph_ref = 13.98 A (config.py). -/
def cfg_Iph_ref : ℚ := 1398/100

/-- CELL_PARAMS alpha_Isc = 0.000140 A/°C (config.py). -/
def cfg_alpha_Isc : ℚ := 14/100000

/-! ## Cell constructor shading clamp (cell_model.py, SolarCell.__init__) -/

/-- np.clip(a, a_min, a_max): clamp a into the interval [a_min, a_max]. -/
def np_clip (a a_min a_max : ℚ) : ℚ := min (max a a_min) a_max

/-- SolarCell.__init__: self.shading_factor = np.clip(shading_factor, 0.0, 1.0). -/
def cell_constructor_shading (shading_factor : ℚ) : ℚ := np_clip shading_factor 0 1

/-! ## Photocurrent (cell_model.py _calculate_photocurrent, lut_cache.py calculate_photocurrent) -/

/-- calculate_photocurrent(irradiance, temperature, shading_factor, Iph_ref, alpha_Isc)
from lut_cache.py; SolarCell._calculate_photocurrent computes the same formula on the
constructor-clamped shading factor. -/
def calculate_photocurrent (irradiance temperature shading_factor Iph_ref alpha_Isc : ℚ) : ℚ :=
  let Iph_base := Iph_ref * (irradiance / 1000)
  let dT := temperature - 25
  let Iph_base_T := Iph_base * (1 + alpha_Isc * dT)
  Iph_base_T * (1 - shading_factor)

/-! ## String composition with bypass diode (string_model.py, CellString.string_voltage_at_current)

A cell's voltage response is `cell.find_operating_point(current)`; the string logic
is independent of how that per-cell solve is carried out, so each cell is modelled
by its voltage-for-current function. -/

/-- Result record of CellString.string_voltage_at_current. -/
structure StringVoltageResult where
  voltage : ℚ
  cell_voltages : List ℚ
  bypass_active : Bool
  bypass_current : ℚ
  raw_string_voltage : ℚ

/-- CellString.string_voltage_at_current(current): per-cell voltages at the shared
current, their sum as the raw string voltage, bypass activation by strict comparison
with -bypass_Vf, and clamping of the exposed voltage when the bypass conducts. -/
def string_voltage_at_current (cell_fop : List (ℚ → ℚ)) (current : ℚ) : StringVoltageResult :=
  let cell_voltages := cell_fop.map (fun cell => cell current)
  let string_voltage := cell_voltages.sum
  let bypass_active := decide (string_voltage < -bypass_Vf)
  { voltage := if string_voltage < -bypass_Vf then -bypass_Vf else string_voltage
    cell_voltages := cell_voltages
    bypass_active := bypass_active
    bypass_current := if string_voltage < -bypass_Vf then current * (9/10) else 0
    raw_string_voltage := string_voltage }

/-! ## Module default current range (module_model.py, PVModule.iv_curve) -/

/-- Python min() over a nonempty list (left fold of binary min over the tail). -/
def pymin : List ℚ → ℚ
  | [] => 0
  | x :: xs => xs.foldl min x

/-- PVModule.iv_curve default bound: per string, Isc = min over its cells' get_Isc();
I_max = min(Isc_values) * 1.05.  The module is represented by the per-cell Isc values
of each of its strings. -/
def module_default_current_max (string_cell_Iscs : List (List ℚ)) : ℚ :=
  let Isc_values := string_cell_Iscs.map pymin
  pymin Isc_values * (105/100)

/-- PVModule.iv_curve default current_range = (0, I_max). -/
def module_default_current_range (string_cell_Iscs : List (List ℚ)) : ℚ × ℚ :=
  (0, module_default_current_max string_cell_Iscs)

/-! ## Root-finder fallback values (cell_model.py find_operating_point except-branch,
lut_cache.py calculate_cell_voltage_for_current except-branch) -/

/-- SolarCell.find_operating_point fallback when brentq cannot bracket a root:
if target_current >= 0 return V_oc * (1 - min(target_current / Iph, 1.0)),
else return -Vbr. -/
def cell_fallback_voltage (target_current Iph V_oc Vbr : ℚ) : ℚ :=
  if 0 ≤ target_current then V_oc * (1 - min (target_current / Iph) 1) else -Vbr

/-- lut_cache.calculate_cell_voltage_for_current fallback when brentq fails:
if current >= 0 return V_oc_estimate * (1 - min(current / max(Iph, 1e-6), 1.0)),
else return -Vbr. -/
def lut_fallback_voltage (current Iph V_oc_estimate Vbr : ℚ) : ℚ :=
  if 0 ≤ current then V_oc_estimate * (1 - min (current / max Iph (1/1000000)) 1) else -Vbr

/-! ## LUT cache validity and startup (lut_cache.py check_lut_validity, initialize_lut) -/

/-- State of the on-disk LUT cache file: absent, present but unreadable
(np.load / json parsing raises), or readable with a stored parameter hash. -/
inductive LutCacheFile
  | missing
  | unreadable
  | stored (params_hash : ℕ)

/-- check_lut_validity(filepath): False when the file does not exist, False when
loading or parsing raises, False when the stored cell_params_hash differs from the
hash recomputed from the current CELL_PARAMS, True otherwise. -/
def check_lut_validity (file : LutCacheFile) (current_hash : ℕ) : Bool :=
  match file with
  | .missing => false
  | .unreadable => false
  | .stored h => if h ≠ current_hash then false else true

/-- os.path.exists(filepath): an unreadable file still exists. -/
def cache_file_exists : LutCacheFile → Bool
  | .missing => false
  | _ => true

/-- The branch taken by initialize_lut: it loads the cache iff
(not force_regenerate) and os.path.exists(path) and check_lut_validity(path);
otherwise it regenerates via generate_lut() (returns true when it regenerates). -/
def init_lut_regenerates (force_regenerate : Bool) (file : LutCacheFile)
    (current_hash : ℕ) : Bool :=
  !(!force_regenerate && cache_file_exists file && check_lut_validity file current_hash)

/-! ## LUT-backed cell with fallback (cell_model.py, LUTSolarCell.find_operating_point) -/

/-- The four coordinates LUTSolarCell passes to the shared interpolator. -/
structure LutQuery where
  irradiance : ℚ
  temperature : ℚ
  shading_factor : ℚ
  target_current : ℚ

/-- LUTSolarCell.find_operating_point: when the class-level interpolator is not
loaded or is None, call the exact solver (super().find_operating_point); otherwise
try the interpolator, and on any exception (modelled by the interpolator returning
none) fall back to the exact solver for the same target current. -/
def lut_find_operating_point (lut_loaded : Bool) (interp : Option (LutQuery → Option ℚ))
    (exact_solver : ℚ → ℚ) (q : LutQuery) : ℚ :=
  match lut_loaded, interp with
  | false, _ => exact_solver q.target_current
  | true, none => exact_solver q.target_current
  | true, some f =>
    match f q with
    | some v => v
    | none => exact_solver q.target_current

/-! ## Bounded solver loops (cell_model.py _find_voltage_for_current_jit,
_calculate_cell_current_jit)

The loop bodies evaluate the diode current, which involves np.exp; the loops
themselves are independent of that evaluation, so the evaluated function is a
parameter.  Each loop also reports the number of iterations it executed. -/

/-- The bisection loop of _find_voltage_for_current_jit: at most `fuel` iterations;
each iteration computes V_mid = 0.5*(V_min+V_max), returns V_mid early when
|f(V_mid) - target_I| < 1e-4, otherwise halves the bracket (error > 0 moves V_max
down, else V_min up).  When the fuel is exhausted the last midpoint is returned.
The second component counts the iterations executed. -/
def bisect_loop (f : ℚ → ℚ) (target_I : ℚ) : ℕ → ℚ → ℚ → ℚ → ℚ × ℕ
  | 0, _, _, last => (last, 0)
  | fuel + 1, V_min, V_max, _ =>
    let V_mid := (1/2) * (V_min + V_max)
    let e := f V_mid - target_I
    if |e| < 1/10000 then (V_mid, 1)
    else if 0 < e then
      let r := bisect_loop f target_I fuel V_min V_mid V_mid
      (r.1, r.2 + 1)
    else
      let r := bisect_loop f target_I fuel V_mid V_max V_mid
      (r.1, r.2 + 1)

/-- _find_voltage_for_current_jit: bracket selection (forward branch
[0, min(V_oc_estimate*1.2, 0.6)] when 0 <= target_I <= Iph*1.01, else [-Vbr, 0])
followed by the 40-iteration bisection.  V_oc_estimate = n*Vt*log((Iph+Is)/Is) is
computed once before the loop and is passed in here. -/
def find_voltage_for_current (f : ℚ → ℚ) (target_I Iph V_oc_estimate Vbr : ℚ) : ℚ × ℕ :=
  let bracket : ℚ × ℚ :=
    if 0 ≤ target_I ∧ target_I ≤ Iph * (101/100) then
      (0, min (V_oc_estimate * (6/5)) (3/5))
    else if target_I < 0 then
      (-Vbr, 0)
    else
      (-Vbr, 0)
  bisect_loop f target_I 40 bracket.1 bracket.2 ((1/2) * (bracket.1 + bracket.2))

/-- The fixed-count relaxation loop of _calculate_cell_current_jit
(for _ in range(num_iter): I = step(I)). -/
def relax_loop (step : ℚ → ℚ) : ℕ → ℚ → ℚ
  | 0, I => I
  | k + 1, I => relax_loop step k (step I)

/-- _calculate_cell_current_jit with its default num_iter = 6 (the only value
callers use): six relaxation steps starting from the initial guess Iph. -/
def calculate_cell_current (step : ℚ → ℚ) (Iph : ℚ) : ℚ := relax_loop step 6 Iph

/-! ## Single-cell current across the branch boundary (cell_model.py
_calculate_single_current_jit and SolarCell.current)

The diode equation involves np.exp, so this part of the embedding lives over ℝ
with Real.exp.  The fixed cell parameters are the exact rationals of config.py. -/

/-- BOLTZMANN = 1.380649e-23 J/K (config.py). -/
def config_BOLTZMANN : ℝ := 1.380649e-23

/-- ELEMENTARY_CHARGE = 1.602176634e-19 C (config.py). -/
def config_ELEMENTARY_CHARGE : ℝ := 1.602176634e-19

/-- SolarCell.__init__ at temperature 25 °C:
Vt = BOLTZMANN * (25 + 273.15) / ELEMENTARY_CHARGE. -/
noncomputable def cell_Vt_at_25 : ℝ := config_BOLTZMANN * (25 + 273.15) / config_ELEMENTARY_CHARGE

/-- min(50.0, max(-50.0, x)): the overflow clip on the diode exponent. -/
noncomputable def clip_pm50 (x : ℝ) : ℝ := min 50 (max (-50) x)

/-- One pass of the 50/50-relaxation loop in the forward branch of
_calculate_single_current_jit:
I := 0.5*I + 0.5*(Iph - Is*(exp(clip(V_diode/(n*Vt))) - 1) - V_diode/Rsh)
with V_diode = V + I*Rs. -/
noncomputable def diode_step (V Iph Is n Vt Rs Rsh I : ℝ) : ℝ :=
  0.5 * I + 0.5 *
    (Iph - Is * (Real.exp (clip_pm50 ((V + I * Rs) / (n * Vt))) - 1) - (V + I * Rs) / Rsh)

/-- _calculate_single_current_jit(V, Iph, Is, n, Vt, Rs, Rsh, Vbr): the forward /
slight-reverse branch (V > -Vbr*0.95) runs six relaxation passes from the initial
guess Iph; the breakdown branch returns the avalanche exponential when
|V| - Vbr > 0 and the linear leakage term otherwise.  SolarCell.current applies
the same two branches (vectorised) with the same boundary. -/
noncomputable def calculate_single_current (V Iph Is n Vt Rs Rsh Vbr : ℝ) : ℝ :=
  if V > -Vbr * 0.95 then
    (diode_step V Iph Is n Vt Rs Rsh)^[6] Iph
  else if |V| - Vbr > 0 then
    -Is * 100 * Real.exp ((|V| - Vbr) / 0.5)
  else
    -Is * 100 + (|V| - Vbr) / Rsh

/-- Photocurrent of the unshaded STC cell (1000 W/m², 25 °C, shading 0):
Iph = Iph_ref * (1000/1000) * (1 + alpha_Isc*0) * (1 - 0) = 13.98 A. -/
def stc_Iph : ℝ := 13.98

/-- Saturation current of the unshaded STC cell (SolarCell.__init__):
Is = Iph * exp(-Voc_target/(n*Vt)) with Voc_target = Voc_ref = 0.385 V at 25 °C. -/
noncomputable def stc_Is : ℝ := stc_Iph * Real.exp (-(0.385) / (0.92 * cell_Vt_at_25))

/-! ## Theorems -/

/-- Helper: the one-sided fold behind pymin is a lower bound of its arguments. -/
theorem foldl_min_le (xs : List ℚ) : ∀ a : ℚ,
    xs.foldl min a ≤ a ∧ ∀ x ∈ xs, xs.foldl min a ≤ x := by
  induction xs with
  | nil => intro a; exact ⟨le_refl a, by intro x hx; cases hx⟩
  | cons y ys ih =>
    intro a
    have h := ih (min a y)
    refine ⟨le_trans h.1 (min_le_left a y), ?_⟩
    intro x hx
    rcases List.mem_cons.mp hx with hxy | hxs
    · subst hxy
      exact le_trans h.1 (min_le_right a x)
    · exact h.2 x hxs

/-- Helper: pymin is a lower bound of every element of the list. -/
theorem pymin_le_mem (l : List ℚ) : ∀ x ∈ l, pymin l ≤ x := by
  cases l with
  | nil => intro x hx; cases hx
  | cons y ys =>
    intro x hx
    rcases List.mem_cons.mp hx with hxy | hxs
    · subst hxy; exact (foldl_min_le ys x).1
    · exact (foldl_min_le ys y).2 x hxs

/-- Claim C10: the constructed cell's shading factor always lies in [0,1]; inputs
already in range pass through unchanged, inputs below 0 clamp to 0, inputs above 1
clamp to 1 (clamped, never rejected: the constructor is total). -/
theorem shading_clamp_spec (s : ℚ) :
    0 ≤ cell_constructor_shading s ∧ cell_constructor_shading s ≤ 1 ∧
    (0 ≤ s → s ≤ 1 → cell_constructor_shading s = s) ∧
    (s < 0 → cell_constructor_shading s = 0) ∧
    (1 < s → cell_constructor_shading s = 1) := by
  unfold cell_constructor_shading np_clip
  refine ⟨le_min (le_max_right s 0) zero_le_one, min_le_right _ _, ?_, ?_, ?_⟩
  · intro h0 h1
    rw [max_eq_left h0, min_eq_left h1]
  · intro hneg
    rw [max_eq_right (le_of_lt hneg), min_eq_left zero_le_one]
  · intro hgt
    have : (1 : ℚ) ≤ max s 0 := le_trans (le_of_lt hgt) (le_max_left s 0)
    rw [min_eq_right this]

/-- Claim C10 witness: evaluation at the out-of-range input 3/2. -/
theorem shading_clamp_witness :
    0 ≤ cell_constructor_shading (3/2) ∧ cell_constructor_shading (3/2) = 1 := by
  have h := shading_clamp_spec (3/2)
  exact ⟨h.1, h.2.2.2.2 (by norm_num)⟩

/-- Claim C8 counterexample: at temperature -10000 °C the temperature-correction
factor 1 + alpha_Isc * dT is negative, so the photocurrent strictly increases when
shading increases from 0 to 1, and strictly decreases when irradiance increases
from 0 to 1000 W/m²: both monotonicity directions of the claim fail. -/
theorem photocurrent_monotone_counterexample :
    calculate_photocurrent 1000 (-10000) 0 cfg_Iph_ref cfg_alpha_Isc <
      calculate_photocurrent 1000 (-10000) 1 cfg_Iph_ref cfg_alpha_Isc ∧
    calculate_photocurrent 1000 (-10000) 0 cfg_Iph_ref cfg_alpha_Isc <
      calculate_photocurrent 0 (-10000) 0 cfg_Iph_ref cfg_alpha_Isc := by
  norm_num [calculate_photocurrent, cfg_Iph_ref, cfg_alpha_Isc]

/-- Claim C8 (amended): whenever the construction temperature satisfies
0 ≤ 1 + alpha_Isc*(T-25) (true for every physically supported temperature, e.g.
the whole -40..85 °C operating range), the derived photocurrent is monotonically
non-increasing in the shading factor and, for shading ≤ 1, non-decreasing in
irradiance over non-negative irradiance, holding the other inputs fixed. -/
theorem photocurrent_monotone (temperature : ℚ)
    (htemp : 0 ≤ 1 + cfg_alpha_Isc * (temperature - 25)) :
    (∀ irradiance s1 s2 : ℚ, 0 ≤ irradiance → s1 ≤ s2 →
      calculate_photocurrent irradiance temperature s2 cfg_Iph_ref cfg_alpha_Isc ≤
        calculate_photocurrent irradiance temperature s1 cfg_Iph_ref cfg_alpha_Isc) ∧
    (∀ s g1 g2 : ℚ, s ≤ 1 → 0 ≤ g1 → g1 ≤ g2 →
      calculate_photocurrent g1 temperature s cfg_Iph_ref cfg_alpha_Isc ≤
        calculate_photocurrent g2 temperature s cfg_Iph_ref cfg_alpha_Isc) := by
  constructor
  · intro irradiance s1 s2 hirr hs
    unfold calculate_photocurrent
    have hK : 0 ≤ 1 + cfg_alpha_Isc * (temperature - 25) := htemp
    have hbase : 0 ≤ cfg_Iph_ref * (irradiance / 1000) * (1 + cfg_alpha_Isc * (temperature - 25)) := by
      have h1 : 0 ≤ cfg_Iph_ref * (irradiance / 1000) := by
        unfold cfg_Iph_ref
        positivity
      exact mul_nonneg h1 hK
    nlinarith [mul_le_mul_of_nonneg_left hs hbase]
  · intro s g1 g2 hs hg1 hg
    unfold calculate_photocurrent
    have hfac : 0 ≤ cfg_Iph_ref * ((1 : ℚ)/1000) * (1 + cfg_alpha_Isc * (temperature - 25)) * (1 - s) := by
      have h1 : (0 : ℚ) ≤ cfg_Iph_ref * ((1 : ℚ)/1000) := by
        unfold cfg_Iph_ref
        positivity
      have h2 : 0 ≤ 1 - s := by linarith
      exact mul_nonneg (mul_nonneg h1 htemp) h2
    nlinarith [mul_le_mul_of_nonneg_right hg hfac]

/-- Claim C8 witness: monotonicity instances at temperature 25 °C, irradiance
1000 vs 500 W/m² and shading 0 vs 1/2. -/
theorem photocurrent_monotone_witness :
    calculate_photocurrent 1000 25 (1/2) cfg_Iph_ref cfg_alpha_Isc ≤
      calculate_photocurrent 1000 25 0 cfg_Iph_ref cfg_alpha_Isc ∧
    calculate_photocurrent 500 25 0 cfg_Iph_ref cfg_alpha_Isc ≤
      calculate_photocurrent 1000 25 0 cfg_Iph_ref cfg_alpha_Isc := by
  have h := photocurrent_monotone 25 (by norm_num [cfg_alpha_Isc])
  exact ⟨h.1 1000 0 (1/2) (by norm_num) (by norm_num),
         h.2 0 500 1000 (by norm_num) (by norm_num) (by norm_num)⟩

/-- Claim C1: string_voltage_at_current reports the raw string voltage as the sum
of the per-cell voltages at the forced current; the bypass diode is active iff
that raw voltage is strictly below -bypass_Vf (= -0.4 V); when active the exposed
voltage is exactly -bypass_Vf, otherwise it is the raw voltage; and at a raw
voltage of exactly -bypass_Vf the bypass is classified as not active and the
exposed voltage equals the raw voltage. -/
theorem string_bypass_clamp_spec (cell_fop : List (ℚ → ℚ)) (current : ℚ) :
    (string_voltage_at_current cell_fop current).raw_string_voltage =
      (cell_fop.map (fun cell => cell current)).sum ∧
    ((string_voltage_at_current cell_fop current).bypass_active = true ↔
      (string_voltage_at_current cell_fop current).raw_string_voltage < -bypass_Vf) ∧
    ((string_voltage_at_current cell_fop current).raw_string_voltage < -bypass_Vf →
      (string_voltage_at_current cell_fop current).voltage = -bypass_Vf) ∧
    (¬ (string_voltage_at_current cell_fop current).raw_string_voltage < -bypass_Vf →
      (string_voltage_at_current cell_fop current).voltage =
        (string_voltage_at_current cell_fop current).raw_string_voltage) ∧
    ((string_voltage_at_current cell_fop current).raw_string_voltage = -bypass_Vf →
      (string_voltage_at_current cell_fop current).bypass_active = false ∧
      (string_voltage_at_current cell_fop current).voltage =
        (string_voltage_at_current cell_fop current).raw_string_voltage) := by
  unfold string_voltage_at_current
  refine ⟨rfl, by simp, ?_, ?_, ?_⟩
  · intro h
    simp only [if_pos h]
  · intro h
    simp only [if_neg h]
  · intro h
    have hnot : ¬ (cell_fop.map (fun cell => cell current)).sum < -bypass_Vf := by
      simp only at h
      rw [h]
      exact lt_irrefl _
    simp only [if_neg hnot]
    exact ⟨by simpa using hnot, trivial⟩

/-- Claim C1 witness: a one-cell string whose cell sits at -1 V while carrying
5 A: the raw voltage -1 V is below -0.4 V, the bypass is active and the exposed
voltage is clamped to exactly -0.4 V. -/
theorem string_bypass_clamp_witness :
    (string_voltage_at_current [fun _ => (-1 : ℚ)] 5).bypass_active = true ∧
    (string_voltage_at_current [fun _ => (-1 : ℚ)] 5).voltage = -bypass_Vf ∧
    (string_voltage_at_current [fun _ => (-1 : ℚ)] 5).raw_string_voltage = -1 := by
  obtain ⟨h1, h2, h3, _, _⟩ := string_bypass_clamp_spec [fun _ => (-1 : ℚ)] 5
  have hraw : (string_voltage_at_current [fun _ => (-1 : ℚ)] 5).raw_string_voltage = -1 := by
    rw [h1]; norm_num
  have hlt : (string_voltage_at_current [fun _ => (-1 : ℚ)] 5).raw_string_voltage < -bypass_Vf := by
    rw [hraw]; norm_num [bypass_Vf]
  exact ⟨h2.mpr hlt, h3 hlt, hraw⟩

/-- Claim C3 counterexample: a module of three strings whose every cell has the
STC short-circuit current 13.98 A.  The default upper bound is
13.98 * 1.05 = 14.679 A, which strictly exceeds the minimum short-circuit current
13.98 A among the strings, contradicting the claim that it never does. -/
theorem module_current_ceiling_counterexample :
    pymin (([[1398/100], [1398/100], [1398/100]] : List (List ℚ)).map pymin) <
      module_default_current_max [[1398/100], [1398/100], [1398/100]] := by
  norm_num [pymin, module_default_current_max]

/-- Claim C3 (amended): the default current upper bound equals the minimum of the
strings' short-circuit currents times the 1.05 safety margin, hence it never
exceeds 1.05 times that minimum (not the bare minimum); each string's
short-circuit current is a lower bound on the short-circuit currents of all of
its cells (the string is limited by its weakest cell); and the default range
starts at 0. -/
theorem module_current_ceiling_margin (string_cell_Iscs : List (List ℚ)) :
    module_default_current_max string_cell_Iscs ≤
      (21/20) * pymin (string_cell_Iscs.map pymin) ∧
    (∀ s ∈ string_cell_Iscs, ∀ x ∈ s, pymin s ≤ x) ∧
    (module_default_current_range string_cell_Iscs).1 = 0 := by
  refine ⟨?_, ?_, rfl⟩
  · unfold module_default_current_max
    rw [mul_comm]
    norm_num
  · intro s _ x hx
    exact pymin_le_mem s x hx

/-- Claim C3 witness: the amended bound evaluated on the three-string module with
per-cell Isc 13.98 A: the default bound 14.679 A is at most 1.05 * 13.98 A, and
the per-string minimum is below its cell value. -/
theorem module_current_ceiling_witness :
    module_default_current_max [[1398/100], [1398/100], [1398/100]] ≤
      (21/20) * pymin (([[1398/100], [1398/100], [1398/100]] : List (List ℚ)).map pymin) ∧
    pymin [(1398/100 : ℚ)] ≤ 1398/100 := by
  obtain ⟨h1, h2, _⟩ := module_current_ceiling_margin [[1398/100], [1398/100], [1398/100]]
  exact ⟨h1, h2 [1398/100] (by simp) (1398/100) (by simp)⟩

/-- Claim C5 counterexample: with Iph = 13.98 A, V_oc = 0.4 V, Vbr = 22 V, a
target current of 28 A exceeds Iph, yet both fallback paths return 0 V (the ratio
caps at 1), not the breakdown voltage: the claim that currents exceeding Iph fall
back to the breakdown voltage is false. -/
theorem root_fallback_counterexample :
    cell_fallback_voltage 28 (1398/100) (2/5) 22 = 0 ∧
    lut_fallback_voltage 28 (1398/100) (2/5) 22 = 0 ∧
    (0 : ℚ) ≠ -22 ∧ (0 : ℚ) ≠ 22 := by
  refine ⟨?_, ?_, by norm_num, by norm_num⟩
  · unfold cell_fallback_voltage
    rw [if_pos (by norm_num)]
    rw [min_eq_right (by norm_num)]
    ring
  · unfold lut_fallback_voltage
    rw [if_pos (by norm_num)]
    rw [max_eq_left (by norm_num), min_eq_right (by norm_num)]
    ring

/-- Claim C5 (amended): when the bounded root-finder fails to bracket a root, the
fallback value is V_oc * (1 - min(I/Iph, 1)) for every non-negative target
current I (so a target at or above Iph yields 0), while the breakdown voltage
-Vbr is returned exactly for negative target currents; both fallback functions
are total, so the failure is never propagated.  The LUT-generation variant guards
the denominator with max(Iph, 1e-6) and behaves identically. -/
theorem root_fallback_voltage_spec (t Iph V_oc Vbr : ℚ) :
    (t < 0 → cell_fallback_voltage t Iph V_oc Vbr = -Vbr ∧
      lut_fallback_voltage t Iph V_oc Vbr = -Vbr) ∧
    (0 ≤ t → cell_fallback_voltage t Iph V_oc Vbr = V_oc * (1 - min (t / Iph) 1)) ∧
    (0 < Iph → Iph ≤ t → cell_fallback_voltage t Iph V_oc Vbr = 0) ∧
    (1/1000000 ≤ Iph → Iph ≤ t → lut_fallback_voltage t Iph V_oc Vbr = 0) := by
  refine ⟨?_, ?_, ?_, ?_⟩
  · intro hneg
    constructor
    · unfold cell_fallback_voltage
      rw [if_neg (by linarith)]
    · unfold lut_fallback_voltage
      rw [if_neg (by linarith)]
  · intro hpos
    unfold cell_fallback_voltage
    rw [if_pos hpos]
  · intro hIph hle
    unfold cell_fallback_voltage
    have ht : 0 ≤ t := le_trans (le_of_lt hIph) hle
    rw [if_pos ht]
    have hr : (1 : ℚ) ≤ t / Iph := (le_div_iff₀ hIph).mpr (by linarith)
    rw [min_eq_right hr]
    ring
  · intro hIph hle
    unfold lut_fallback_voltage
    have hIpos : (0 : ℚ) < Iph := lt_of_lt_of_le (by norm_num) hIph
    have ht : 0 ≤ t := le_trans (le_of_lt hIpos) hle
    rw [if_pos ht, max_eq_left hIph]
    have hr : (1 : ℚ) ≤ t / Iph := (le_div_iff₀ hIpos).mpr (by linarith)
    rw [min_eq_right hr]
    ring

/-- Claim C5 witness: the amended spec at a negative target (-3 A, giving -22 V)
and at 29 A above Iph = 13.98 A (giving 0 V on both fallback paths). -/
theorem root_fallback_witness :
    cell_fallback_voltage (-3) (1398/100) (2/5) 22 = -22 ∧
    cell_fallback_voltage 29 (1398/100) (2/5) 22 = 0 ∧
    lut_fallback_voltage 29 (1398/100) (2/5) 22 = 0 := by
  refine ⟨?_, ?_, ?_⟩
  · have h := (root_fallback_voltage_spec (-3) (1398/100) (2/5) 22).1 (by norm_num)
    simpa using h.1
  · exact (root_fallback_voltage_spec 29 (1398/100) (2/5) 22).2.2.1 (by norm_num) (by norm_num)
  · exact (root_fallback_voltage_spec 29 (1398/100) (2/5) 22).2.2.2 (by norm_num) (by norm_num)

/-- Claim C6: cache validity checking returns false for a missing file, for an
unreadable file, and for a stored parameter hash differing from the hash
recomputed from the current cell parameters; and in each of those cases the LUT
startup path (without force_regenerate) takes the regeneration branch instead of
loading, while a matching stored hash is loaded. -/
theorem lut_cache_invalidation_spec (h current_hash : ℕ) :
    check_lut_validity .missing current_hash = false ∧
    check_lut_validity .unreadable current_hash = false ∧
    (h ≠ current_hash → check_lut_validity (.stored h) current_hash = false) ∧
    init_lut_regenerates false .missing current_hash = true ∧
    init_lut_regenerates false .unreadable current_hash = true ∧
    (h ≠ current_hash → init_lut_regenerates false (.stored h) current_hash = true) ∧
    (h = current_hash → init_lut_regenerates false (.stored h) current_hash = false) := by
  refine ⟨rfl, rfl, ?_, rfl, ?_, ?_, ?_⟩
  · intro hne
    simp [check_lut_validity, hne]
  · rfl
  · intro hne
    simp [init_lut_regenerates, cache_file_exists, check_lut_validity, hne]
  · intro heq
    simp [init_lut_regenerates, cache_file_exists, check_lut_validity, heq]

/-- Claim C6 witness: stored hash 1 against recomputed hash 2 is invalid and
regenerates; stored hash 2 against 2 is valid and loads. -/
theorem lut_cache_invalidation_witness :
    check_lut_validity (.stored 1) 2 = false ∧
    init_lut_regenerates false (.stored 1) 2 = true ∧
    init_lut_regenerates false (.stored 2) 2 = false := by
  obtain ⟨_, _, h3, _, _, h6, _⟩ := lut_cache_invalidation_spec 1 2
  obtain ⟨_, _, _, _, _, _, h7⟩ := lut_cache_invalidation_spec 2 2
  exact ⟨h3 (by decide), h6 (by decide), h7 rfl⟩

/-- Claim C7: whenever the shared interpolator is not loaded, is absent, or
raises during interpolation, the LUT-backed cell returns exactly the exact
solver's result for the same target current; the function is total, so no
exception escapes. -/
theorem lut_interp_fallback_spec (interp : Option (LutQuery → Option ℚ))
    (exact_solver : ℚ → ℚ) (q : LutQuery) :
    lut_find_operating_point false interp exact_solver q = exact_solver q.target_current ∧
    lut_find_operating_point true none exact_solver q = exact_solver q.target_current ∧
    (∀ f, interp = some f → f q = none →
      lut_find_operating_point true interp exact_solver q = exact_solver q.target_current) ∧
    (∀ f v, interp = some f → f q = some v →
      lut_find_operating_point true interp exact_solver q = v) := by
  refine ⟨rfl, rfl, ?_, ?_⟩
  · intro f hf hfq
    subst hf
    simp [lut_find_operating_point, hfq]
  · intro f v hf hfq
    subst hf
    simp [lut_find_operating_point, hfq]

/-- Claim C7 witness: at the STC query, an unavailable interpolator and a raising
interpolator both yield the exact solver's value 7, while a successful
interpolation yields its own value 9. -/
theorem lut_interp_fallback_witness :
    lut_find_operating_point false (some (fun _ => none)) (fun _ => 7)
      ⟨1000, 25, 0, 5⟩ = 7 ∧
    lut_find_operating_point true (some (fun _ => none)) (fun _ => 7)
      ⟨1000, 25, 0, 5⟩ = 7 ∧
    lut_find_operating_point true (some (fun _ => some 9)) (fun _ => 7)
      ⟨1000, 25, 0, 5⟩ = 9 := by
  obtain ⟨h1, _, h3, _⟩ :=
    lut_interp_fallback_spec (some (fun _ => none)) (fun _ => (7 : ℚ)) ⟨1000, 25, 0, 5⟩
  obtain ⟨_, _, _, h4⟩ :=
    lut_interp_fallback_spec (some (fun _ => some (9 : ℚ))) (fun _ => (7 : ℚ)) ⟨1000, 25, 0, 5⟩
  exact ⟨h1, h3 _ rfl rfl, h4 _ 9 rfl rfl⟩

/-- Helper: the bisection loop never executes more iterations than its fuel. -/
theorem bisect_loop_steps_le (f : ℚ → ℚ) (target_I : ℚ) :
    ∀ (fuel : ℕ) (V_min V_max last : ℚ),
      (bisect_loop f target_I fuel V_min V_max last).2 ≤ fuel := by
  intro fuel
  induction fuel with
  | zero => intro V_min V_max last; simp [bisect_loop]
  | succ n ih =>
    intro V_min V_max last
    simp only [bisect_loop]
    split
    · simp
    · split
      · have := ih V_min ((1/2) * (V_min + V_max)) ((1/2) * (V_min + V_max))
        simpa using Nat.succ_le_succ this
      · have := ih ((1/2) * (V_min + V_max)) V_max ((1/2) * (V_min + V_max))
        simpa using Nat.succ_le_succ this

/-- Helper: relax_loop is iterated application of the step function. -/
theorem relax_loop_eq_iterate (step : ℚ → ℚ) :
    ∀ (k : ℕ) (I : ℚ), relax_loop step k I = step^[k] I := by
  intro k
  induction k with
  | zero => intro I; rfl
  | succ n ih =>
    intro I
    rw [relax_loop, ih (step I), Function.iterate_succ_apply]

/-- Claim C9: the bisection inverse executes at most 40 iterations for every
current function, target and bracket parameters, and the diode fixed-point
relaxation performs exactly 6 applications of its step, so neither solver loop
can run unboundedly. -/
theorem solver_iteration_bounds :
    (∀ (f : ℚ → ℚ) (target_I Iph V_oc_estimate Vbr : ℚ),
      (find_voltage_for_current f target_I Iph V_oc_estimate Vbr).2 ≤ 40) ∧
    (∀ (step : ℚ → ℚ) (Iph : ℚ), calculate_cell_current step Iph = step^[6] Iph) := by
  constructor
  · intro f target_I Iph V_oc_estimate Vbr
    unfold find_voltage_for_current
    exact bisect_loop_steps_le f target_I 40 _ _ _
  · intro step Iph
    exact relax_loop_eq_iterate step 6 Iph

/-- Helper: bounds on the thermal voltage at 25 °C. -/
theorem cell_Vt_bounds : (0.0256 : ℝ) < cell_Vt_at_25 ∧ cell_Vt_at_25 < 0.0258 := by
  unfold cell_Vt_at_25 config_BOLTZMANN config_ELEMENTARY_CHARGE
  constructor
  · rw [lt_div_iff₀ (by norm_num)]
    norm_num
  · rw [div_lt_iff₀ (by norm_num)]
    norm_num

/-- Helper: the STC saturation current is positive and below 14 A. -/
theorem stc_Is_bounds : (0 : ℝ) < stc_Is ∧ stc_Is < 14 := by
  obtain ⟨hVt1, _⟩ := cell_Vt_bounds
  constructor
  · exact mul_pos (by norm_num [stc_Iph]) (Real.exp_pos _)
  · have harg : -(0.385 : ℝ) / (0.92 * cell_Vt_at_25) < 0 := by
      apply div_neg_of_neg_of_pos (by norm_num)
      nlinarith
    have hexp : Real.exp (-(0.385) / (0.92 * cell_Vt_at_25)) < 1 :=
      Real.exp_lt_one_iff.mpr harg
    have hpos : (0 : ℝ) < Real.exp (-(0.385) / (0.92 * cell_Vt_at_25)) := Real.exp_pos _
    unfold stc_Is stc_Iph
    nlinarith

/-- Helper: on the voltage band just above the branch boundary, one relaxation
pass maps currents in [13.98, 28] back into [13.98, 28] for the unshaded STC
cell: the exponent clips to -50, the diode term is a tiny negative correction,
and the shunt term adds about 4 mA. -/
theorem diode_step_mem (V I : ℝ) (hV1 : -20.9 ≤ V) (hV2 : V ≤ -20.8)
    (hI1 : 13.98 ≤ I) (hI2 : I ≤ 28) :
    13.98 ≤ diode_step V 13.98 stc_Is 0.92 cell_Vt_at_25 0.0008 5000 I ∧
    diode_step V 13.98 stc_Is 0.92 cell_Vt_at_25 0.0008 5000 I ≤ 28 := by
  obtain ⟨hVt1, hVt2⟩ := cell_Vt_bounds
  obtain ⟨hIs1, hIs2⟩ := stc_Is_bounds
  have hVd1 : -20.9 ≤ V + I * 0.0008 := by nlinarith
  have hVd2 : V + I * 0.0008 ≤ -20.7776 := by nlinarith
  have hden : (0 : ℝ) < 0.92 * cell_Vt_at_25 := by nlinarith
  have harg : (V + I * 0.0008) / (0.92 * cell_Vt_at_25) ≤ -50 := by
    rw [div_le_iff₀ hden]
    nlinarith
  have hclip : clip_pm50 ((V + I * 0.0008) / (0.92 * cell_Vt_at_25)) = -50 := by
    unfold clip_pm50
    rw [max_eq_left harg, min_eq_right (by norm_num)]
  have hE1 : (0 : ℝ) < Real.exp (-50) := Real.exp_pos _
  have hE2 : Real.exp (-50) < 1 := Real.exp_lt_one_iff.mpr (by norm_num)
  unfold diode_step
  rw [hclip]
  constructor <;> nlinarith [mul_pos hIs1 hE1, mul_lt_mul_of_pos_left hE2 hIs1]

/-- Helper: every number of relaxation passes keeps the current of the unshaded
STC cell inside [13.98, 28] on the band just above the branch boundary. -/
theorem iterate_diode_step_mem (V : ℝ) (hV1 : -20.9 ≤ V) (hV2 : V ≤ -20.8) :
    ∀ (k : ℕ) (I : ℝ), 13.98 ≤ I → I ≤ 28 →
      13.98 ≤ (diode_step V 13.98 stc_Is 0.92 cell_Vt_at_25 0.0008 5000)^[k] I ∧
      (diode_step V 13.98 stc_Is 0.92 cell_Vt_at_25 0.0008 5000)^[k] I ≤ 28 := by
  intro k
  induction k with
  | zero => intro I h1 h2; simpa using ⟨h1, h2⟩
  | succ n ih =>
    intro I h1 h2
    rw [Function.iterate_succ_apply]
    obtain ⟨s1, s2⟩ := diode_step_mem V I hV1 hV2 h1 h2
    exact ih _ s1 s2

/-- Helper: for the unshaded STC cell the two branches of
_calculate_single_current_jit differ by more than 13 A across the
V = -0.95*Vbr = -20.9 V boundary, for every offset 0 < ε ≤ 0.1. -/
theorem boundary_jump_aux (ε : ℝ) (h1 : 0 < ε) (h2 : ε ≤ 1/10) :
    13 < calculate_single_current (-22 * 0.95 + ε) 13.98 stc_Is 0.92 cell_Vt_at_25 0.0008 5000 22
      - calculate_single_current (-22 * 0.95 - ε) 13.98 stc_Is 0.92 cell_Vt_at_25 0.0008 5000 22 := by
  obtain ⟨hIs1, hIs2⟩ := stc_Is_bounds
  have hA : 13.98 ≤
      calculate_single_current (-22 * 0.95 + ε) 13.98 stc_Is 0.92 cell_Vt_at_25 0.0008 5000 22 := by
    unfold calculate_single_current
    rw [if_pos (by norm_num; linarith)]
    exact (iterate_diode_step_mem (-22 * 0.95 + ε) (by norm_num; linarith)
      (by norm_num; linarith) 6 13.98 le_rfl (by norm_num)).1
  have hB : calculate_single_current (-22 * 0.95 - ε) 13.98 stc_Is 0.92 cell_Vt_at_25 0.0008 5000 22
      < 0 := by
    unfold calculate_single_current
    rw [if_neg (by norm_num; linarith)]
    have habs : |(-22 * 0.95 - ε : ℝ)| = 20.9 + ε := by
      rw [abs_of_neg (by norm_num; linarith)]
      ring
    rw [if_neg (by rw [habs]; norm_num; linarith)]
    rw [habs]
    have : (20.9 + ε - 22) / 5000 < 0 := by
      apply div_neg_of_neg_of_pos _ (by norm_num)
      linarith
    nlinarith
  linarith

/-- Claim C4 counterexample: at the branch boundary -0.95*Vbr = -20.9 V of the
unshaded STC cell, the currents evaluated 0.01 V above and 0.01 V below the
boundary differ by more than 13 A (the forward branch yields about Iph ≈ 13.98 A
while the avalanche branch yields a slightly negative leakage), so they do not
agree to within any small tolerance. -/
theorem cell_current_boundary_counterexample :
    ¬ |calculate_single_current (-22 * 0.95 + 1/100) 13.98 stc_Is 0.92 cell_Vt_at_25 0.0008 5000 22
        - calculate_single_current (-22 * 0.95 - 1/100) 13.98 stc_Is 0.92 cell_Vt_at_25 0.0008 5000 22|
      ≤ 1 := by
  have h := boundary_jump_aux (1/100) (by norm_num) (by norm_num)
  intro hc
  have := (abs_le.mp hc).2
  linarith

/-- Claim C4 (amended): current(voltage) is discontinuous at the branch boundary
V = -0.95*Vbr: the forward/slight-reverse branch keeps the photocurrent term
while the avalanche branch ignores it, so for the unshaded STC cell the values
at -0.95*Vbr + ε and -0.95*Vbr - ε differ by more than 13 A for every offset
0 < ε ≤ 0.1 V.  Continuity to a small tolerance holds at most for cells whose
photocurrent is itself below that tolerance. -/
theorem cell_current_boundary_jump (ε : ℝ) (h1 : 0 < ε) (h2 : ε ≤ 1/10) :
    13 < calculate_single_current (-22 * 0.95 + ε) 13.98 stc_Is 0.92 cell_Vt_at_25 0.0008 5000 22
      - calculate_single_current (-22 * 0.95 - ε) 13.98 stc_Is 0.92 cell_Vt_at_25 0.0008 5000 22 :=
  boundary_jump_aux ε h1 h2

/-- Claim C4 witness: the amended discontinuity statement at ε = 0.01 V. -/
theorem cell_current_boundary_jump_witness :
    0 < (1/100 : ℝ) ∧ (1/100 : ℝ) ≤ 1/10 ∧
    13 < calculate_single_current (-22 * 0.95 + 1/100) 13.98 stc_Is 0.92 cell_Vt_at_25 0.0008 5000 22
      - calculate_single_current (-22 * 0.95 - 1/100) 13.98 stc_Is 0.92 cell_Vt_at_25 0.0008 5000 22 :=
  ⟨by norm_num, by norm_num, cell_current_boundary_jump (1/100) (by norm_num) (by norm_num)⟩

end PVModul
